import Mathlib

/-!
Shallow embedding of the WandererRotatorSDK core (files
`WandererRotatorSDK.cpp`, `WandererRotatorProtocol.cpp`,
`WandererRotatorDevice.h`, `WandererRotatorSerialPort.cpp`).

Modelling conventions:
* C `float` arithmetic is modelled exactly over `ℚ`; rounding of float
  operations is out of scope, every arithmetic step of the source is kept.
* A C cast `(int)x` truncates toward zero; it is modelled by `qtrunc`.
* The serial line is explicit: each `SerialPort::Read` result is one entry
  of a `frames` list (an empty entry models a read that returned no bytes,
  i.e. a timeout), and every `SerialPort::Write` is appended to a trace of
  written commands which the operations return.
* `std::thread` spawning in `StartMoveListener` is modelled by setting the
  `listenerRunning` flag; one invocation of the background listener body is
  the function `MoveListenerThreadFunc` on the frames it will read.  The
  recursive re-entry of the listener for the overshoot return phase is one
  further application of that function to the remaining frames.
-/

namespace WandererRotator

/-- Characters of a C string / `std::string`. -/
abbrev Str := List Char

/-- Truncation toward zero: the value of the C cast `(int)q`.  `Int.tdiv`
is T-division, which rounds the quotient toward zero exactly as C does. -/
def qtrunc (q : ℚ) : ℤ := Int.tdiv q.num q.den

/-- Exact model of C `fmodf x y` for `y ≠ 0`: the remainder
`x - y * trunc (x / y)`, which carries the sign of `x`. -/
def fmodf (x y : ℚ) : ℚ := x - y * (qtrunc (x / y) : ℚ)

/-- Decimal digit character for `n % 10`. -/
def digitChar (n : ℕ) : Char := Char.ofNat (48 + n % 10)

/-- Decimal rendering of a natural number, most significant digit first,
prepended to `acc` (the digit loop of `printf "%u"`).  The first argument
is recursion fuel; `natDecimal` supplies enough that it never runs out. -/
def natDecimalAux : ℕ → ℕ → Str → Str
  | 0, _, acc => acc
  | fuel + 1, n, acc =>
    if n < 10 then digitChar n :: acc
    else natDecimalAux fuel (n / 10) (digitChar (n % 10) :: acc)

/-- Decimal rendering of a natural number. -/
def natDecimal (n : ℕ) : Str := natDecimalAux (n + 1) n []

/-- Decimal rendering of a C `int`, as produced by `printf "%d"`. -/
def intDecimal (n : ℤ) : Str :=
  if n < 0 then '-' :: natDecimal n.natAbs else natDecimal n.toNat

/-- Model of `snprintf(buf, bufSize, "%d", n)`: at most `bufSize - 1`
characters of the decimal rendering fit in the buffer. -/
def snprintfInt (bufSize : ℕ) (n : ℤ) : Str := (intDecimal n).take (bufSize - 1)

/-- Numeric value of a block of decimal digit characters. -/
def digitsVal (ds : Str) : ℕ := ds.foldl (fun a c => a * 10 + (c.toNat - 48)) 0

/-- Model of the `%d` conversion of `sscanf` on one response frame:
skip whitespace, optional sign, then at least one decimal digit.  Digits
after the first non-digit (such as the `'A'` frame terminator) are
ignored, as `sscanf` ignores them. -/
def parseIntFrame (f : Str) : Option ℤ :=
  let cs := f.dropWhile (fun c => c.isWhitespace)
  match cs with
  | '-' :: r =>
      let ds := r.takeWhile Char.isDigit
      if ds = [] then none else some (-(digitsVal ds : ℤ))
  | '+' :: r =>
      let ds := r.takeWhile Char.isDigit
      if ds = [] then none else some (digitsVal ds : ℤ)
  | _ =>
      let ds := cs.takeWhile Char.isDigit
      if ds = [] then none else some (digitsVal ds : ℤ)

/-- Model of the `%f` conversion of `sscanf` on one response frame, for the
plain decimal forms the device produces: skip whitespace, optional sign,
integer digits, optionally a dot and fraction digits (at least one digit in
total).  Exponent forms are not modelled. -/
def parseFloatFrame (f : Str) : Option ℚ :=
  let cs := f.dropWhile (fun c => c.isWhitespace)
  let sgn : ℚ × Str :=
    match cs with
    | '-' :: r => (-1, r)
    | '+' :: r => (1, r)
    | _ => (1, cs)
  let ip := sgn.2.takeWhile Char.isDigit
  let r1 := sgn.2.dropWhile Char.isDigit
  match r1 with
  | '.' :: r2 =>
      let fp := r2.takeWhile Char.isDigit
      if ip = [] ∧ fp = [] then none
      else some (sgn.1 * ((digitsVal ip : ℚ) + (digitsVal fp : ℚ) / (10 : ℚ) ^ fp.length))
  | _ => if ip = [] then none else some (sgn.1 * (digitsVal ip : ℚ))

/-- Model of `sscanf(response, "WandererRotator%7[^A]A", model)`: the frame
must start with the literal `WandererRotator`, then at most 7 characters
different from `'A'` are captured; capturing zero characters is a
conversion failure. -/
def parseModelFrame (f : Str) : Option Str :=
  let pre := "WandererRotator".toList
  if f.take pre.length = pre then
    let m := ((f.drop pre.length).takeWhile (fun c => c ≠ 'A')).take 7
    if m = [] then none else some m
  else none

/-- Result of the `i`-th `SerialPort::Read` on the modelled line: the frame
if any bytes arrived, `none` when the read returned no bytes (timeout). -/
def readFrame (frames : List Str) (i : ℕ) : Option Str :=
  match frames.get? i with
  | some s => if s = [] then none else some s
  | none => none

/-- Model of `std::string::find(pat) != npos`: some index of `s` starts an
occurrence of `pat`. -/
def containsSub (s pat : Str) : Bool :=
  (List.range (s.length + 1)).any (fun i => (s.drop i).take pat.length == pat)

/-- Mirror of `WR_ERROR_TYPE` in `WandererRotatorSDK.h`. -/
inductive WRError where
  | success
  | invalidId
  | invalidParameter
  | invalidState
  | communication
  | nullPointer
deriving DecidableEq

/-- Mirror of the nested `Device::RotatorConfig` record. -/
structure RotatorConfigView where
  reverseDirection : ℤ := 0
  stepRate : ℤ := 50
deriving DecidableEq

/-- Mirror of the nested `Device::RotatorStatus` record. -/
structure RotatorStatus where
  position : ℚ := 0
  moving : ℤ := 0
  stepsPerRevolution : ℤ := 0
  stepSize : ℚ := 0
deriving DecidableEq

/-- Mirror of `Device` in `WandererRotatorDevice.h`.  The `SerialPort`
member is flattened into `hasPort` (the `shared_ptr` owns a port object),
`portOpen` (`SerialPort::IsOpen`), and `portWriteOk` (whether a
`SerialPort::Write` on this line transmits all bytes — the environment of
one run).  The fields `overshooting` and `overshootAngle` are the ones the
listener in `WandererRotatorProtocol.cpp` uses for the two-phase backlash
compensation. -/
structure Device where
  hasPort : Bool := true
  portOpen : Bool := true
  portWriteOk : Bool := true
  portName : Str := []
  modelType : Str := []
  firmwareVersion : ℤ := 0
  mechanicalAngle : ℤ := 0
  backlash : ℤ := 0
  reverseDirection : ℤ := 0
  stepsPerDegree : ℤ := 0
  targetAngle : ℚ := 0
  lastRotated : ℚ := 0
  rotator : RotatorConfigView := {}
  status : RotatorStatus := {}
  listenerRunning : Bool := false
  overshooting : ℤ := 0
  overshootAngle : ℚ := 0
deriving DecidableEq

/-- The registry `g_devices`: association of integer handles to devices. -/
abbrev Registry := List (ℤ × Device)

/-- Lookup of `g_devices.find(id)`. -/
def findDevice (reg : Registry) (id : ℤ) : Option Device :=
  (reg.find? (fun p => p.1 == id)).map (fun p => p.2)

/-- In C the registry stores `shared_ptr<Device>` and entries are mutated
in place; here mutation is explicit replacement of the entry. -/
def updateDevice (reg : Registry) (id : ℤ) (d : Device) : Registry :=
  reg.map (fun p => if p.1 == id then (p.1, d) else p)

/-- Mirror of `SendCommand` in `WandererRotatorProtocol.cpp`: fails when
there is no open port, otherwise attempts the write (recorded on the
trace) and reports whether all bytes were transmitted. -/
def SendCommand (d : Device) (cmd : Str) : Bool × List Str :=
  if d.hasPort && d.portOpen then (d.portWriteOk, [cmd]) else (false, [])

/-- Mirror of `BacklashToCommand`: `(int)(backlash * 10.0f) + 1600000`. -/
def BacklashToCommand (backlash : ℚ) : ℤ := qtrunc (backlash * 10) + 1600000

/-- Mirror of `ReverseDirectionToCommand`: `"1700001\n"` for nonzero
`reverse`, `"1700000\n"` otherwise. -/
def ReverseDirectionToCommand (reverse : ℤ) : Str :=
  if reverse ≠ 0 then "1700001\n".toList else "1700000\n".toList

/-- Mirror of `StopMoveListener`: only clears the liveness flag. -/
def StopMoveListener (d : Device) : Device := { d with listenerRunning := false }

/-- Mirror of `StartMoveListener`: clears then sets the liveness flag and
spawns the detached listener thread (the thread body is modelled by
`MoveListenerThreadFunc` applied to the frames it will read). -/
def StartMoveListener (d : Device) : Device := { d with listenerRunning := true }

/-- Model name to steps-per-degree mapping at the end of `QueryStatus`
(`WandererRotatorProtocol.cpp` lines 215-231): `"Mini"` is checked first,
then `"Lite"`, refined by `"V2"`; otherwise the previous value is kept. -/
def spdUpdate (prev : ℤ) (model : Str) : ℤ :=
  if containsSub model "Mini".toList then 1142
  else if containsSub model "Lite".toList then
    (if containsSub model "V2".toList then 1199 else 1155)
  else prev

/-- Parsing cascade of `QueryStatus` after the probe write: five reads
(model, firmware, mechanical angle, backlash, reverse flag), each aborting
on a short read or unparsable frame while keeping the fields already
assigned, then the derived fields.  `device->backlash = backlash * 10.0f`
assigns a float to an `int` member, hence `qtrunc`.  `status.stepSize` is
`1.0f / stepsPerDegree`; the `ℚ` model uses `1 / spd` (meaningful whenever
`spd ≠ 0`; at `spd = 0` the C float is `inf`, which `ℚ` cannot express). -/
def queryStatusParse (d : Device) (frames : List Str) : Bool × Device :=
  match readFrame frames 0 with
  | none => (false, d)
  | some f0 =>
    match parseModelFrame f0 with
    | none => (false, d)
    | some model =>
      let d1 := { d with modelType := model }
      match readFrame frames 1 with
      | none => (false, d1)
      | some f1 =>
        match parseIntFrame f1 with
        | none => (false, d1)
        | some fw =>
          let d2 := { d1 with firmwareVersion := fw }
          match readFrame frames 2 with
          | none => (false, d2)
          | some f2 =>
            match parseIntFrame f2 with
            | none => (false, d2)
            | some mech =>
              let d3 := { d2 with mechanicalAngle := mech }
              match readFrame frames 3 with
              | none => (false, d3)
              | some f3 =>
                match parseFloatFrame f3 with
                | none => (false, d3)
                | some bl =>
                  let d4 := { d3 with backlash := qtrunc (bl * 10) }
                  match readFrame frames 4 with
                  | none => (false, d4)
                  | some f4 =>
                    match parseIntFrame f4 with
                    | none => (false, d4)
                    | some rev =>
                      let d5 := { d4 with reverseDirection := rev }
                      let spd := spdUpdate d5.stepsPerDegree d5.modelType
                      (true, { d5 with
                        stepsPerDegree := spd,
                        status := { d5.status with
                          stepsPerRevolution := spd * 360,
                          stepSize := 1 / (spd : ℚ),
                          position := (d5.mechanicalAngle : ℚ) / 1000 } })

/-- Mirror of `QueryStatus` in `WandererRotatorProtocol.cpp`: port checks,
the probe write `"1500001\n"` (a failed write aborts the query), then the
five-frame parsing cascade.  Returns the success flag, the device (with
any partial mutation), and the trace of written commands. -/
def QueryStatus (d : Device) (frames : List Str) : Bool × Device × List Str :=
  if d.hasPort && d.portOpen then
    if d.portWriteOk then
      let p := queryStatusParse d frames
      (p.1, p.2, ["1500001\n".toList])
    else (false, d, ["1500001\n".toList])
  else (false, d, [])

/-- Mirror of `WRRotatorClose`: looks the handle up, stops the listener,
closes the port.  The registry entry is not erased. -/
def WRRotatorClose (reg : Registry) (id : ℤ) : WRError × Registry :=
  match findDevice reg id with
  | none => (.invalidId, reg)
  | some d =>
    let d1 := StopMoveListener d
    let d2 := if d1.hasPort then { d1 with portOpen := false } else d1
    (.success, updateDevice reg id d2)

/-- Output record of `WRRotatorGetStatus` (`WR_ROTATOR_STATUS`). -/
structure StatusOut where
  position : ℚ
  moving : ℤ
  stepsPerRevolution : ℤ
  stepSize : ℚ
deriving DecidableEq

/-- Output record of `WRRotatorGetConfig` (the fields it assigns). -/
structure ConfigOut where
  reverseDirection : ℤ
  backlash : ℚ
deriving DecidableEq

/-- Output record of `WRRotatorGetVersion` (`WR_VERSION`). -/
structure VersionOut where
  firmware : ℤ
  model : Str
deriving DecidableEq

/-- Mirror of `WRRotatorGetStatus`: null-pointer check, lookup, then a
plain copy of the cached status fields.  No transport access. -/
def WRRotatorGetStatus (reg : Registry) (id : ℤ) (ptrNull : Bool) :
    WRError × Option StatusOut × Registry × List Str :=
  if ptrNull then (.nullPointer, none, reg, [])
  else
    match findDevice reg id with
    | none => (.invalidId, none, reg, [])
    | some d =>
      (.success, some ⟨d.status.position, d.status.moving,
        d.status.stepsPerRevolution, d.status.stepSize⟩, reg, [])

/-- Mirror of `WRRotatorGetConfig`: copies `rotator.reverseDirection` and
`backlash / 10.0f`.  No transport access. -/
def WRRotatorGetConfig (reg : Registry) (id : ℤ) (ptrNull : Bool) :
    WRError × Option ConfigOut × Registry × List Str :=
  if ptrNull then (.nullPointer, none, reg, [])
  else
    match findDevice reg id with
    | none => (.invalidId, none, reg, [])
    | some d =>
      (.success, some ⟨d.rotator.reverseDirection, (d.backlash : ℚ) / 10⟩, reg, [])

/-- Mirror of `WRRotatorGetVersion`: copies the firmware version and (via
`strncpy` into `char model[8]`) at most 7 characters of the model string.
No transport access. -/
def WRRotatorGetVersion (reg : Registry) (id : ℤ) (ptrNull : Bool) :
    WRError × Option VersionOut × Registry × List Str :=
  if ptrNull then (.nullPointer, none, reg, [])
  else
    match findDevice reg id with
    | none => (.invalidId, none, reg, [])
    | some d =>
      (.success, some ⟨d.firmwareVersion, d.modelType.take 7⟩, reg, [])

/-- Mask bit `MASK_ROTATOR_REVERSE_DIRECTION`. -/
def MASK_ROTATOR_REVERSE_DIRECTION : ℕ := 1

/-- Mask bit `MASK_ROTATOR_BACKLASH`. -/
def MASK_ROTATOR_BACKLASH : ℕ := 2

/-- Mirror of `WR_ROTATOR_CONFIG`. -/
structure WRConfig where
  mask : ℕ := 0
  reverseDirection : ℤ := 0
  backlash : ℚ := 0
  overshoot : ℤ := 0
  overshootAngle : ℚ := 0
  overshotDirection : ℤ := 0
deriving DecidableEq

/-- Backlash phase of `WRRotatorSetConfig` (the second `if` block): the
negative-value check precedes the command write; on success the device's
internal `×10` integer backlash is updated with the truncated value. -/
def setConfigBacklashPhase (reg : Registry) (id : ℤ) (d : Device)
    (cfg : WRConfig) (w : List Str) : WRError × Registry × List Str :=
  if cfg.mask &&& MASK_ROTATOR_BACKLASH ≠ 0 then
    if cfg.backlash < 0 then (.invalidParameter, updateDevice reg id d, w)
    else
      let cmd := intDecimal (BacklashToCommand cfg.backlash) ++ ['\n']
      let s := SendCommand d cmd
      if s.1 then
        (.success, updateDevice reg id { d with backlash := qtrunc (cfg.backlash * 10) }, w ++ s.2)
      else (.communication, updateDevice reg id d, w ++ s.2)
  else (.success, updateDevice reg id d, w)

/-- Mirror of `WRRotatorSetConfig`: the reverse-direction mask bit is
handled first (its command is written and the device fields updated
before the backlash block runs), then the backlash mask bit. -/
def WRRotatorSetConfig (reg : Registry) (id : ℤ) (cfg : WRConfig) (ptrNull : Bool) :
    WRError × Registry × List Str :=
  if ptrNull then (.nullPointer, reg, [])
  else
    match findDevice reg id with
    | none => (.invalidId, reg, [])
    | some d =>
      if cfg.mask &&& MASK_ROTATOR_REVERSE_DIRECTION ≠ 0 then
        let s := SendCommand d (ReverseDirectionToCommand cfg.reverseDirection)
        if s.1 then
          let d1 := { d with
            rotator := { d.rotator with reverseDirection := cfg.reverseDirection },
            reverseDirection := cfg.reverseDirection }
          setConfigBacklashPhase reg id d1 cfg s.2
        else (.communication, reg, s.2)
      else setConfigBacklashPhase reg id d cfg []

/-- Mirror of `WRRotatorStopMove`: sends the literal `"stop"`; the motion
flag is cleared only after a successful write. -/
def WRRotatorStopMove (reg : Registry) (id : ℤ) : WRError × Registry × List Str :=
  match findDevice reg id with
  | none => (.invalidId, reg, [])
  | some d =>
    if d.hasPort && d.portOpen then
      let s := SendCommand d "stop".toList
      if s.1 then
        (.success, updateDevice reg id { d with status := { d.status with moving := 0 } }, s.2)
      else (.communication, reg, s.2)
    else (.communication, reg, [])

/-- Mirror of `WRRotatorMove`: encodes the relative move command
`1000000 + (int)(angle * stepsPerDegree)` into an 8-byte buffer, stores
the target, sends the command, marks the device moving and starts the
completion listener. -/
def WRRotatorMove (reg : Registry) (id : ℤ) (angle : ℚ) : WRError × Registry × List Str :=
  match findDevice reg id with
  | none => (.invalidId, reg, [])
  | some d =>
    if d.hasPort && d.portOpen then
      let commandValue : ℤ := 1000000 + qtrunc (angle * (d.stepsPerDegree : ℚ))
      let cmd := snprintfInt 8 commandValue
      let d1 := { d with targetAngle := angle }
      let s := SendCommand d1 cmd
      if s.1 then
        let d2 := StartMoveListener { d1 with status := { d1.status with moving := 1 } }
        (.success, updateDevice reg id d2, s.2)
      else (.communication, updateDevice reg id d1, s.2)
    else (.communication, reg, [])

/-- Shortest-path delta of `WRRotatorMoveTo` (`WandererRotatorSDK.cpp`
lines 529-533): `delta = angle - currentAngle`, normalized by
`fmodf(delta + 180, 360)` and the sign-dependent `±180` adjustment. -/
def movetoDelta (angle currentAngle : ℚ) : ℚ :=
  let delta0 := angle - currentAngle
  let delta1 := fmodf (delta0 + 180) 360
  if delta1 < 0 then delta1 + 180 else delta1 - 180

/-- Mirror of `WRRotatorMoveTo`: handle, port and range checks, a status
query for the current position, the shortest-path delta; a zero delta
returns success at once, otherwise the delta goes to `WRRotatorMove`
(which looks the device up again in the updated registry). -/
def WRRotatorMoveTo (reg : Registry) (id : ℤ) (angle : ℚ) (frames : List Str) :
    WRError × Registry × List Str :=
  match findDevice reg id with
  | none => (.invalidId, reg, [])
  | some d =>
    if d.hasPort && d.portOpen then
      if angle < 0 ∨ 360 ≤ angle then (.invalidParameter, reg, [])
      else
        let q := QueryStatus d frames
        if q.1 then
          let d1 := q.2.1
          let currentAngle : ℚ := (d1.mechanicalAngle : ℚ) / 1000
          let delta := movetoDelta angle currentAngle
          if delta = 0 then (.success, updateDevice reg id d1, q.2.2)
          else
            let r := WRRotatorMove (updateDevice reg id d1) id delta
            (r.1, r.2.1, q.2.2 ++ r.2.2)
        else (.communication, updateDevice reg id q.2.1, q.2.2)
    else (.communication, reg, [])

/-- One invocation of the background listener body
(`MoveListenerThreadFunc` in `WandererRotatorProtocol.cpp`): reads the
angle-rotated frame and the new-position frame, updates the position, and
runs the overshoot state machine; in phase 1 it encodes the return move
into a 16-byte buffer, sends it, and restarts the listener (the recursive
re-entry is a further application of this function to later frames). -/
def MoveListenerThreadFunc (d : Device) (frames : List Str) : Device × List Str :=
  if d.hasPort then
    if d.portOpen then
      match readFrame frames 0 with
      | none => ({ d with listenerRunning := false }, [])
      | some f0 =>
        match parseFloatFrame f0 with
        | none => ({ d with listenerRunning := false }, [])
        | some rot =>
          let d1 := { d with lastRotated := rot }
          match readFrame frames 1 with
          | none => ({ d1 with listenerRunning := false }, [])
          | some f1 =>
            match parseIntFrame f1 with
            | none => ({ d1 with listenerRunning := false }, [])
            | some mech =>
              let d2 := { d1 with
                mechanicalAngle := mech,
                status := { d1.status with position := (mech : ℚ) / 1000 } }
              if d2.overshooting = (1 : ℤ) then
                let d3 := { d2 with overshooting := 2 }
                let returnAngle : ℚ :=
                  if 0 < d3.targetAngle then -d3.overshootAngle else d3.overshootAngle
                let commandValue : ℤ :=
                  1000000 + qtrunc (returnAngle * (d3.stepsPerDegree : ℚ))
                let cmd := snprintfInt 16 commandValue
                let s := SendCommand d3 cmd
                if s.1 then
                  (StartMoveListener { d3 with status := { d3.status with moving := 1 } }, s.2)
                else
                  ({ d3 with
                      overshooting := 0,
                      status := { d3.status with moving := 0 },
                      listenerRunning := false }, s.2)
              else if d2.overshooting = (2 : ℤ) then
                ({ d2 with
                    overshooting := 0,
                    status := { d2.status with moving := 0 },
                    listenerRunning := false }, [])
              else
                ({ d2 with
                    status := { d2.status with moving := 0 },
                    listenerRunning := false }, [])
    else ({ d with listenerRunning := false }, [])
  else (d, [])

/-- Sample serial-line input: a status response of a `Lite V2` unit
(model frame, firmware, mechanical angle in milli-degrees, backlash,
reverse flag). -/
def sampleFramesLiteV2 : List Str :=
  ["WandererRotatorLiteV2A".toList, "100A".toList, "5000A".toList,
    "0.0A".toList, "0A".toList]

/-- Sample serial-line input: a status response whose model suffix `Pro`
is not in the model table. -/
def sampleFramesPro : List Str :=
  ["WandererRotatorProA".toList, "100A".toList, "5000A".toList,
    "0.0A".toList, "0A".toList]

/-- Sample serial-line input: a status response of a `Mini` unit. -/
def sampleFramesMini : List Str :=
  ["WandererRotatorMiniA".toList, "100A".toList, "5000A".toList,
    "0.0A".toList, "0A".toList]

/-! Helper lemmas about truncation and `fmodf`. -/

theorem qtrunc_of_nonneg (q : ℚ) (h : 0 ≤ q) : qtrunc q = ⌊q⌋ := by
  unfold qtrunc
  rw [Int.tdiv_eq_ediv (Rat.num_nonneg.mpr h) (Int.ofNat_nonneg _)]
  rw [← Rat.floor_intCast_div_natCast q.num q.den, Rat.num_div_den]

theorem qtrunc_of_neg (q : ℚ) (h : q < 0) : qtrunc q = ⌈q⌉ := by
  unfold qtrunc
  have hq : q.num.tdiv q.den = -((-q.num).tdiv q.den) := by
    rw [Int.neg_tdiv, neg_neg]
  rw [hq, Int.tdiv_eq_ediv (by have := Rat.num_neg.mpr h; omega) (Int.ofNat_nonneg _)]
  rw [← Rat.floor_intCast_div_natCast (-q.num) q.den]
  have hcast : ((-q.num : ℤ) : ℚ) / (q.den : ℚ) = -q := by
    push_cast
    rw [neg_div, Rat.num_div_den]
  rw [hcast, Int.floor_neg, neg_neg]

theorem fmodf_sub_int (x : ℚ) : ∃ k : ℤ, fmodf x 360 = x - 360 * k :=
  ⟨qtrunc (x / 360), by unfold fmodf; ring⟩

theorem fmodf_nonneg_mem (x : ℚ) (hx : 0 ≤ x) :
    0 ≤ fmodf x 360 ∧ fmodf x 360 < 360 := by
  unfold fmodf
  rw [qtrunc_of_nonneg _ (by positivity)]
  have h1 : (⌊x / 360⌋ : ℚ) ≤ x / 360 := Int.floor_le _
  have h2 : x / 360 < ⌊x / 360⌋ + 1 := Int.lt_floor_add_one _
  constructor <;> linarith

theorem fmodf_of_neg_gt (x : ℚ) (h1 : -360 < x) (h2 : x < 0) : fmodf x 360 = x := by
  unfold fmodf
  rw [qtrunc_of_neg _ (div_neg_of_neg_of_pos h2 (by norm_num))]
  have hc : ⌈x / 360⌉ = 0 := by
    rw [Int.ceil_eq_zero_iff]
    constructor <;> [skip; skip] <;> [linarith; linarith]
  rw [hc]
  push_cast
  ring

/-- Claim C1, counterexample: with target `180°` and current `0°` (both in
the claimed domain), `WRRotatorMoveTo` computes the delta `-180°`, which is
not in the claimed half-open range `(-180°, 180°]`; the normalization maps
a required `+180°` move to `-180°`. -/
theorem movetoDelta_boundary_violation :
    (0 : ℚ) ≤ 180 ∧ (180 : ℚ) < 360 ∧
      movetoDelta 180 0 = -180 ∧ ¬(-180 < movetoDelta 180 0) := by
  have h1 : qtrunc ((180 - 0 + 180 : ℚ) / 360) = 1 := by
    rw [show ((180 : ℚ) - 0 + 180) / 360 = 1 by norm_num,
      qtrunc_of_nonneg _ (by norm_num)]
    exact Int.floor_one
  have h : movetoDelta 180 0 = -180 := by
    simp only [movetoDelta, fmodf, h1]
    norm_num
  refine ⟨by norm_num, by norm_num, h, by rw [h]; norm_num⟩

/-- Claim C1, amended: for targets and currents in `[0°, 360°)` the delta
computed by `WRRotatorMoveTo` lies in the half-open range `[-180°, 180°)`
(closed on the left, open on the right — not `(-180°, 180°]` as claimed),
and `current + delta ≡ target (mod 360)`. -/
theorem movetoDelta_range_congruent (target current : ℚ)
    (ht0 : 0 ≤ target) (ht1 : target < 360)
    (hc0 : 0 ≤ current) (hc1 : current < 360) :
    (-180 ≤ movetoDelta target current ∧ movetoDelta target current < 180) ∧
      ∃ k : ℤ, current + movetoDelta target current = target + 360 * k := by
  simp only [movetoDelta]
  set x : ℚ := target - current + 180 with hxdef
  by_cases hxs : 0 ≤ x
  · obtain ⟨hm0, hm1⟩ := fmodf_nonneg_mem x hxs
    obtain ⟨k, hk⟩ := fmodf_sub_int x
    rw [if_neg (not_lt.mpr hm0)]
    refine ⟨⟨by linarith, by linarith⟩, ⟨-k, ?_⟩⟩
    push_cast
    rw [hk, hxdef]
    ring
  · push_neg at hxs
    have hgt : -360 < x := by rw [hxdef]; linarith
    rw [fmodf_of_neg_gt x hgt hxs, if_pos hxs]
    refine ⟨⟨by linarith, by linarith⟩, ⟨1, ?_⟩⟩
    rw [hxdef]
    push_cast
    ring

/-- Witness for `movetoDelta_range_congruent` at target `90°`, current
`45°`. -/
theorem movetoDelta_range_congruent_witness :
    (-180 ≤ movetoDelta 90 45 ∧ movetoDelta 90 45 < 180) ∧
      ∃ k : ℤ, (45 : ℚ) + movetoDelta 90 45 = 90 + 360 * k :=
  movetoDelta_range_congruent 90 45 (by norm_num) (by norm_num)
    (by norm_num) (by norm_num)

theorem qtrunc_nonneg_eval (q : ℚ) (n : ℤ) (h0 : 0 ≤ q)
    (h1 : (n : ℚ) ≤ q) (h2 : q < n + 1) : qtrunc q = n := by
  rw [qtrunc_of_nonneg _ h0]
  refine Int.floor_eq_iff.mpr ⟨h1, ?_⟩
  exact_mod_cast h2

theorem qtrunc_neg_eval (q : ℚ) (n : ℤ) (h0 : q < 0)
    (h1 : (n : ℚ) - 1 < q) (h2 : q ≤ n) : qtrunc q = n := by
  rw [qtrunc_of_neg _ h0]
  refine Int.ceil_eq_iff.mpr ⟨?_, h2⟩
  exact_mod_cast h1

/-- Claim C8, counterexample: at backlash `3/16 = 0.1875°` (a value exact
in `float`), the code computes `(int)(0.1875 * 10) = (int)1.875 = 1`, so
`BacklashToCommand (3/16) = 1600001`, while rounding to the nearest
integer would give `2` and hence `1600002`. -/
theorem backlashToCommand_not_rounded :
    (0 : ℚ) ≤ 3 / 16 ∧
    BacklashToCommand (3 / 16) = 1600001 ∧
    round ((3 / 16 : ℚ) * 10) + 1600000 = 1600002 ∧
    BacklashToCommand (3 / 16) ≠ round ((3 / 16 : ℚ) * 10) + 1600000 := by
  have h1 : BacklashToCommand (3 / 16) = 1600001 := by
    unfold BacklashToCommand
    rw [qtrunc_nonneg_eval ((3 : ℚ) / 16 * 10) 1 (by norm_num) (by norm_num)
      (by norm_num)]
    norm_num
  have h2 : round ((3 / 16 : ℚ) * 10) = 2 := by
    rw [round_eq]
    rw [show (3 / 16 : ℚ) * 10 + 1 / 2 = 19 / 8 by norm_num]
    rw [show (2 : ℤ) = ⌊(19 / 8 : ℚ)⌋ from (Int.floor_eq_iff.mpr
      (by constructor <;> norm_num)).symm]
  refine ⟨by norm_num, h1, by rw [h2]; norm_num, by rw [h1, h2]; norm_num⟩

/-- Claim C8, amended: `BacklashToCommand b` equals the *truncation* of
`b × 10` plus `1600000` (for nonnegative `b` this is `⌊b * 10⌋ + 1600000`),
not the rounding to the nearest integer; the two quoted concrete values
hold because `2.5 × 10` and `0.0 × 10` are integers. -/
theorem backlashToCommand_truncation :
    BacklashToCommand (5 / 2) = 1600025 ∧ BacklashToCommand 0 = 1600000 ∧
      ∀ b : ℚ, 0 ≤ b → BacklashToCommand b = ⌊b * 10⌋ + 1600000 := by
  refine ⟨?_, ?_, ?_⟩
  · unfold BacklashToCommand
    rw [qtrunc_nonneg_eval ((5 : ℚ) / 2 * 10) 25 (by norm_num) (by norm_num)
      (by norm_num)]
    norm_num
  · unfold BacklashToCommand
    rw [qtrunc_nonneg_eval ((0 : ℚ) * 10) 0 (by norm_num) (by norm_num)
      (by norm_num)]
    norm_num
  · intro b hb
    unfold BacklashToCommand
    rw [qtrunc_of_nonneg _ (by positivity)]

/-- Witness for `backlashToCommand_truncation` at backlash `3/16`. -/
theorem backlashToCommand_truncation_witness :
    (0 : ℚ) ≤ 3 / 16 ∧ BacklashToCommand (3 / 16) = ⌊(3 / 16 : ℚ) * 10⌋ + 1600000 :=
  ⟨by norm_num, backlashToCommand_truncation.2.2 (3 / 16) (by norm_num)⟩

/-! Registry helper. -/

theorem findDevice_update_of_found (reg : Registry) (id : ℤ) (d0 d : Device)
    (h : findDevice reg id = some d0) :
    findDevice (updateDevice reg id d) id = some d := by
  induction reg with
  | nil => simp [findDevice] at h
  | cons hd tl ih =>
    by_cases hid : hd.1 = id
    · have hu : updateDevice (hd :: tl) id d = (hd.1, d) :: updateDevice tl id d := by
        simp [updateDevice, hid]
      rw [hu]
      unfold findDevice
      rw [List.find?_cons_of_pos _ (by simp [hid])]
      rfl
    · have hu : updateDevice (hd :: tl) id d = hd :: updateDevice tl id d := by
        simp [updateDevice, hid]
      unfold findDevice at h ⊢
      rw [List.find?_cons_of_neg _ (by simp [hid])] at h
      rw [hu, List.find?_cons_of_neg _ (by simp [hid])]
      exact ih h

/-- Claim C4, counterexample: closing a registered handle succeeds but the
registry entry is *not* erased — the lookup still finds the device and a
subsequent `WRRotatorGetStatus` on the same handle does not fail with
`InvalidHandle` (it succeeds, returning the cached status). -/
theorem close_keeps_registry_entry :
    (WRRotatorClose [((0 : ℤ), ({} : Device))] 0).1 = WRError.success ∧
    findDevice (WRRotatorClose [((0 : ℤ), ({} : Device))] 0).2 0 ≠ none ∧
    (WRRotatorGetStatus (WRRotatorClose [((0 : ℤ), ({} : Device))] 0).2 0 false).1 =
      WRError.success := by
  refine ⟨rfl, ?_, rfl⟩
  intro h
  simp [WRRotatorClose, findDevice, updateDevice, StopMoveListener, List.find?] at h

/-- Claim C4, amended: an explicit close on a known handle stops the
listener and closes the transport, but it does *not* erase the registry
entry: the handle still resolves to the (closed) device afterwards, so
subsequent operations do not fail with `InvalidHandle`. -/
theorem close_stops_listener_closes_port (reg : Registry) (id : ℤ) (d : Device)
    (h : findDevice reg id = some d) (hp : d.hasPort = true) :
    (WRRotatorClose reg id).1 = WRError.success ∧
    findDevice (WRRotatorClose reg id).2 id =
      some { d with listenerRunning := false, portOpen := false } := by
  unfold WRRotatorClose
  simp only [h]
  refine ⟨by trivial, ?_⟩
  simp [StopMoveListener, hp]
  exact findDevice_update_of_found reg id d _ h

/-- Witness for `close_stops_listener_closes_port` on a one-entry
registry. -/
theorem close_stops_listener_closes_port_witness :
    (WRRotatorClose [((0 : ℤ), ({ listenerRunning := true } : Device))] 0).1 =
      WRError.success ∧
    findDevice (WRRotatorClose [((0 : ℤ), ({ listenerRunning := true } : Device))] 0).2 0 =
      some { ({ listenerRunning := true } : Device) with
        listenerRunning := false, portOpen := false } :=
  close_stops_listener_closes_port _ 0 _ rfl rfl

/-- Claim C6, counterexample: on a device whose port is open but whose
write fails, `WRRotatorStopMove` returns `Communication` and leaves the
motion flag set — it does not clear `status.moving` when the transport
write of the stop command fails. -/
theorem stopMove_write_failure_keeps_moving :
    (WRRotatorStopMove
      [((0 : ℤ), ({ portWriteOk := false, status := { moving := 1 } } : Device))] 0).1 =
      WRError.communication ∧
    (WRRotatorStopMove
      [((0 : ℤ), ({ portWriteOk := false, status := { moving := 1 } } : Device))] 0).2.1 =
      [((0 : ℤ), ({ portWriteOk := false, status := { moving := 1 } } : Device))] ∧
    ({ portWriteOk := false, status := { moving := 1 } } : Device).status.moving = 1 :=
  ⟨rfl, rfl, rfl⟩

/-- Claim C6, amended: `WRRotatorStopMove` on a valid open handle sends
the literal `"stop"`; the motion flag is cleared only when that write
succeeds — on a write failure the call returns `Communication` and the
registry (hence `status.moving`) is unchanged. -/
theorem stopMove_success_clears_moving (reg : Registry) (id : ℤ) (d : Device)
    (h : findDevice reg id = some d) (hp : d.hasPort = true)
    (ho : d.portOpen = true) (hw : d.portWriteOk = true) :
    (WRRotatorStopMove reg id).1 = WRError.success ∧
    (WRRotatorStopMove reg id).2.2 = ["stop".toList] ∧
    findDevice (WRRotatorStopMove reg id).2.1 id =
      some { d with status := { d.status with moving := 0 } } := by
  unfold WRRotatorStopMove
  simp only [h]
  simp [hp, ho, hw, SendCommand]
  exact findDevice_update_of_found reg id d _ h

/-- Witness for `stopMove_success_clears_moving` on a moving device. -/
theorem stopMove_success_clears_moving_witness :
    (WRRotatorStopMove [((0 : ℤ), ({ status := { moving := 1 } } : Device))] 0).1 =
      WRError.success ∧
    (WRRotatorStopMove [((0 : ℤ), ({ status := { moving := 1 } } : Device))] 0).2.2 =
      ["stop".toList] ∧
    findDevice
      (WRRotatorStopMove [((0 : ℤ), ({ status := { moving := 1 } } : Device))] 0).2.1 0 =
      some { ({ status := { moving := 1 } } : Device) with
        status := { ({ status := { moving := 1 } } : Device).status with moving := 0 } } :=
  stopMove_success_clears_moving _ 0 _ rfl rfl rfl rfl

/-- Claim C5, counterexample: with a request whose mask sets *both* the
reverse-direction bit and the backlash bit and whose backlash is negative,
`WRRotatorSetConfig` does return `InvalidParameter`, but the
reverse-direction command has already been written to the transport and
the device's direction fields have already been mutated before the
rejection. -/
theorem setConfig_negative_backlash_writes_reverse :
    (WRRotatorSetConfig [((0 : ℤ), ({} : Device))] 0
        { mask := 3, reverseDirection := 1, backlash := -1 } false).1 =
      WRError.invalidParameter ∧
    (WRRotatorSetConfig [((0 : ℤ), ({} : Device))] 0
        { mask := 3, reverseDirection := 1, backlash := -1 } false).2.2 =
      ["1700001\n".toList] ∧
    ["1700001\n".toList] ≠ ([] : List Str) ∧
    findDevice (WRRotatorSetConfig [((0 : ℤ), ({} : Device))] 0
        { mask := 3, reverseDirection := 1, backlash := -1 } false).2.1 0 ≠
      some ({} : Device) := by
  refine ⟨rfl, rfl, by decide, by decide⟩

/-- Claim C5, amended: the early rejection holds only when the
reverse-direction mask bit is *not* also set: then a negative backlash
yields `InvalidParameter` with no transport write and an unchanged device.
(With the reverse bit set, the reverse command is written and applied
first, as the counterexample shows.) -/
theorem setConfig_negative_backlash_rejected (reg : Registry) (id : ℤ)
    (d : Device) (cfg : WRConfig) (h : findDevice reg id = some d)
    (hb : cfg.mask &&& MASK_ROTATOR_BACKLASH ≠ 0) (hneg : cfg.backlash < 0)
    (hrev : cfg.mask &&& MASK_ROTATOR_REVERSE_DIRECTION = 0) :
    (WRRotatorSetConfig reg id cfg false).1 = WRError.invalidParameter ∧
    (WRRotatorSetConfig reg id cfg false).2.2 = [] ∧
    findDevice (WRRotatorSetConfig reg id cfg false).2.1 id = some d := by
  unfold WRRotatorSetConfig
  simp only [h]
  have hrevneg : ¬(cfg.mask &&& MASK_ROTATOR_REVERSE_DIRECTION ≠ 0) := by
    simp [hrev]
  rw [if_neg hrevneg]
  unfold setConfigBacklashPhase
  rw [if_pos hb, if_pos hneg]
  exact ⟨by trivial, by trivial, findDevice_update_of_found reg id d _ h⟩

/-- Witness for `setConfig_negative_backlash_rejected`: backlash-only mask
with backlash `-1`. -/
theorem setConfig_negative_backlash_rejected_witness :
    (WRRotatorSetConfig [((0 : ℤ), ({} : Device))] 0
        { mask := 2, backlash := -1 } false).1 = WRError.invalidParameter ∧
    (WRRotatorSetConfig [((0 : ℤ), ({} : Device))] 0
        { mask := 2, backlash := -1 } false).2.2 = [] ∧
    findDevice (WRRotatorSetConfig [((0 : ℤ), ({} : Device))] 0
        { mask := 2, backlash := -1 } false).2.1 0 = some ({} : Device) :=
  setConfig_negative_backlash_rejected _ 0 _ _ rfl (by decide)
    (by norm_num) (by decide)

/-- Claim C10: the three read-only operations succeed on a known handle,
copy exactly the cached fields into the output record, leave the registry
(and hence every field of the device) unchanged, and perform no transport
write; `GetVersion` copies the model string through an 8-byte `strncpy`
buffer, which is the identity whenever the model has at most 7 characters
(`QueryStatus` never stores more). -/
theorem getters_pure_frame (reg : Registry) (id : ℤ) (d : Device)
    (h : findDevice reg id = some d) :
    ((WRRotatorGetStatus reg id false).1 = WRError.success ∧
      (WRRotatorGetStatus reg id false).2.1 =
        some ⟨d.status.position, d.status.moving,
          d.status.stepsPerRevolution, d.status.stepSize⟩ ∧
      (WRRotatorGetStatus reg id false).2.2.1 = reg ∧
      (WRRotatorGetStatus reg id false).2.2.2 = []) ∧
    ((WRRotatorGetConfig reg id false).1 = WRError.success ∧
      (WRRotatorGetConfig reg id false).2.1 =
        some ⟨d.rotator.reverseDirection, (d.backlash : ℚ) / 10⟩ ∧
      (WRRotatorGetConfig reg id false).2.2.1 = reg ∧
      (WRRotatorGetConfig reg id false).2.2.2 = []) ∧
    ((WRRotatorGetVersion reg id false).1 = WRError.success ∧
      (WRRotatorGetVersion reg id false).2.1 =
        some ⟨d.firmwareVersion, d.modelType.take 7⟩ ∧
      (d.modelType.length ≤ 7 →
        (WRRotatorGetVersion reg id false).2.1 =
          some ⟨d.firmwareVersion, d.modelType⟩) ∧
      (WRRotatorGetVersion reg id false).2.2.1 = reg ∧
      (WRRotatorGetVersion reg id false).2.2.2 = []) := by
  unfold WRRotatorGetStatus WRRotatorGetConfig WRRotatorGetVersion
  simp only [h]
  refine ⟨⟨by trivial, by trivial, by trivial, by trivial⟩,
    ⟨by trivial, by trivial, by trivial, by trivial⟩,
    ⟨by trivial, by trivial, fun hlen => ?_, by trivial, by trivial⟩⟩
  simp [List.take_of_length_le hlen]

/-- Witness for `getters_pure_frame` on a one-entry registry. -/
theorem getters_pure_frame_witness :
    (WRRotatorGetStatus [((0 : ℤ), ({} : Device))] 0 false).1 = WRError.success ∧
    (WRRotatorGetStatus [((0 : ℤ), ({} : Device))] 0 false).2.1 =
      some ⟨({} : Device).status.position, ({} : Device).status.moving,
        ({} : Device).status.stepsPerRevolution, ({} : Device).status.stepSize⟩ ∧
    (WRRotatorGetStatus [((0 : ℤ), ({} : Device))] 0 false).2.2.1 =
      [((0 : ℤ), ({} : Device))] ∧
    (WRRotatorGetStatus [((0 : ℤ), ({} : Device))] 0 false).2.2.2 = [] :=
  (getters_pure_frame [((0 : ℤ), ({} : Device))] 0 {} rfl).1

/-! Parsing and status-query helper lemmas. -/

theorem parseModelFrame_spec {f m : Str} (h : parseModelFrame f = some m) :
    m.length ≤ 7 ∧ m ≠ [] := by
  simp only [parseModelFrame] at h
  split at h
  · split at h
    · exact absurd h (by simp)
    · rename_i hmne
      have hinj := Option.some.inj h
      constructor
      · rw [← hinj]
        exact List.length_take_le _ _
      · rw [← hinj]
        exact hmne
  · exact absurd h (by simp)

theorem containsSub_spec {s pat : Str} (hne : pat ≠ [])
    (h : containsSub s pat = true) :
    ∃ i, i + pat.length ≤ s.length ∧
      ∀ k, k < pat.length → s[i + k]? = pat[k]? := by
  unfold containsSub at h
  rw [List.any_eq_true] at h
  obtain ⟨i, hmem, hEq⟩ := h
  rw [beq_iff_eq] at hEq
  have hlen : ((s.drop i).take pat.length).length = pat.length := by rw [hEq]
  rw [List.length_take, List.length_drop] at hlen
  have hpl : pat.length ≠ 0 := fun h0 => hne (List.eq_nil_of_length_eq_zero h0)
  refine ⟨i, by omega, ?_⟩
  intro k hk
  have h2 : ((s.drop i).take pat.length)[k]? = pat[k]? := by rw [hEq]
  rw [List.getElem?_take, if_pos hk, List.getElem?_drop] at h2
  exact h2

theorem mini_lite_disjoint {s : Str} (h7 : s.length ≤ 7)
    (hM : containsSub s "Mini".toList = true)
    (hL : containsSub s "Lite".toList = true) : False := by
  obtain ⟨i, hi, hMk⟩ := containsSub_spec (by decide) hM
  obtain ⟨j, hj, hLk⟩ := containsSub_spec (by decide) hL
  rw [show ("Mini".toList : Str).length = 4 from rfl] at hi hMk
  rw [show ("Lite".toList : Str).length = 4 from rfl] at hj hLk
  have m0 : s[i]? = some 'M' := by
    have h0 := hMk 0 (by omega)
    rw [show ("Mini".toList)[0]? = some 'M' from rfl] at h0
    simpa using h0
  have m1 : s[i + 1]? = some 'i' := by
    have h0 := hMk 1 (by omega)
    rwa [show ("Mini".toList)[1]? = some 'i' from rfl] at h0
  have m2 : s[i + 2]? = some 'n' := by
    have h0 := hMk 2 (by omega)
    rwa [show ("Mini".toList)[2]? = some 'n' from rfl] at h0
  have m3 : s[i + 3]? = some 'i' := by
    have h0 := hMk 3 (by omega)
    rwa [show ("Mini".toList)[3]? = some 'i' from rfl] at h0
  have l0 : s[j]? = some 'L' := by
    have h0 := hLk 0 (by omega)
    rw [show ("Lite".toList)[0]? = some 'L' from rfl] at h0
    simpa using h0
  have l1 : s[j + 1]? = some 'i' := by
    have h0 := hLk 1 (by omega)
    rwa [show ("Lite".toList)[1]? = some 'i' from rfl] at h0
  have l2 : s[j + 2]? = some 't' := by
    have h0 := hLk 2 (by omega)
    rwa [show ("Lite".toList)[2]? = some 't' from rfl] at h0
  have l3 : s[j + 3]? = some 'e' := by
    have h0 := hLk 3 (by omega)
    rwa [show ("Lite".toList)[3]? = some 'e' from rfl] at h0
  have hi3 : i ≤ 3 := by omega
  have hj3 : j ≤ 3 := by omega
  interval_cases i <;> interval_cases j <;> simp_all

theorem queryStatusParse_true_spec (d : Device) (frames : List Str)
    (h : (queryStatusParse d frames).1 = true) :
    ∃ f0 model, readFrame frames 0 = some f0 ∧ parseModelFrame f0 = some model ∧
      (queryStatusParse d frames).2.modelType = model ∧
      (queryStatusParse d frames).2.stepsPerDegree =
        spdUpdate d.stepsPerDegree model ∧
      (queryStatusParse d frames).2.status.stepsPerRevolution =
        spdUpdate d.stepsPerDegree model * 360 ∧
      (queryStatusParse d frames).2.status.stepSize =
        1 / ((spdUpdate d.stepsPerDegree model : ℤ) : ℚ) := by
  cases hr0 : readFrame frames 0 with
  | none => simp [queryStatusParse, hr0] at h
  | some f0 =>
  cases hp0 : parseModelFrame f0 with
  | none => simp [queryStatusParse, hr0, hp0] at h
  | some model =>
  cases hr1 : readFrame frames 1 with
  | none => simp [queryStatusParse, hr0, hp0, hr1] at h
  | some f1 =>
  cases hp1 : parseIntFrame f1 with
  | none => simp [queryStatusParse, hr0, hp0, hr1, hp1] at h
  | some fw =>
  cases hr2 : readFrame frames 2 with
  | none => simp [queryStatusParse, hr0, hp0, hr1, hp1, hr2] at h
  | some f2 =>
  cases hp2 : parseIntFrame f2 with
  | none => simp [queryStatusParse, hr0, hp0, hr1, hp1, hr2, hp2] at h
  | some mech =>
  cases hr3 : readFrame frames 3 with
  | none => simp [queryStatusParse, hr0, hp0, hr1, hp1, hr2, hp2, hr3] at h
  | some f3 =>
  cases hp3 : parseFloatFrame f3 with
  | none => simp [queryStatusParse, hr0, hp0, hr1, hp1, hr2, hp2, hr3, hp3] at h
  | some bl =>
  cases hr4 : readFrame frames 4 with
  | none => simp [queryStatusParse, hr0, hp0, hr1, hp1, hr2, hp2, hr3, hp3, hr4] at h
  | some f4 =>
  cases hp4 : parseIntFrame f4 with
  | none =>
    simp [queryStatusParse, hr0, hp0, hr1, hp1, hr2, hp2, hr3, hp3, hr4, hp4] at h
  | some rev =>
    refine ⟨f0, model, rfl, hp0, ?_, ?_, ?_, ?_⟩ <;>
      simp [queryStatusParse, hr0, hp0, hr1, hp1, hr2, hp2, hr3, hp3, hr4, hp4]

theorem QueryStatus_true_parts (d : Device) (frames : List Str)
    (h : (QueryStatus d frames).1 = true) :
    (queryStatusParse d frames).1 = true ∧
    (QueryStatus d frames).2.1 = (queryStatusParse d frames).2 ∧
    (QueryStatus d frames).2.2 = ["1500001\n".toList] ∧
    d.hasPort = true ∧ d.portOpen = true ∧ d.portWriteOk = true := by
  cases hP : d.hasPort <;> cases hO : d.portOpen <;> cases hW : d.portWriteOk <;>
    simp_all [QueryStatus]

/-- Claim C7: after a successful status query, `stepsPerDegree` is `1142`
when the stored model name contains `"Mini"`, `1199` when it contains
`"Lite"` and `"V2"`, and `1155` when it contains `"Lite"` but not `"V2"`
(the stored model has at most 7 characters, so it can never contain both
`"Mini"` and `"Lite"`); `stepsPerRevolution` is `stepsPerDegree × 360` and
`stepSize` is `1 / stepsPerDegree` (stated for nonzero `stepsPerDegree`;
at zero the C float division yields infinity, outside the `ℚ` model). -/
theorem queryStatus_model_mapping (d : Device) (frames : List Str)
    (h : (QueryStatus d frames).1 = true) :
    (containsSub (QueryStatus d frames).2.1.modelType "Mini".toList = true →
      (QueryStatus d frames).2.1.stepsPerDegree = 1142) ∧
    (containsSub (QueryStatus d frames).2.1.modelType "Lite".toList = true →
      containsSub (QueryStatus d frames).2.1.modelType "V2".toList = true →
      (QueryStatus d frames).2.1.stepsPerDegree = 1199) ∧
    (containsSub (QueryStatus d frames).2.1.modelType "Lite".toList = true →
      containsSub (QueryStatus d frames).2.1.modelType "V2".toList = false →
      (QueryStatus d frames).2.1.stepsPerDegree = 1155) ∧
    (QueryStatus d frames).2.1.status.stepsPerRevolution =
      (QueryStatus d frames).2.1.stepsPerDegree * 360 ∧
    ((QueryStatus d frames).2.1.stepsPerDegree ≠ 0 →
      (QueryStatus d frames).2.1.status.stepSize =
        1 / ((QueryStatus d frames).2.1.stepsPerDegree : ℚ)) := by
  obtain ⟨hp, hdev, -, -, -, -⟩ := QueryStatus_true_parts d frames h
  obtain ⟨f0, model, hr0, hp0, hmt, hspd, hrev, hsz⟩ :=
    queryStatusParse_true_spec d frames hp
  obtain ⟨h7, -⟩ := parseModelFrame_spec hp0
  rw [hdev, hmt, hspd, hrev, hsz]
  refine ⟨?_, ?_, ?_, rfl, fun _ => rfl⟩
  · intro hM
    simp only [spdUpdate]
    rw [if_pos hM]
  · intro hL hV
    have hM : containsSub model "Mini".toList = false := by
      cases hMb : containsSub model "Mini".toList
      · rfl
      · exact (mini_lite_disjoint h7 hMb hL).elim
    simp only [spdUpdate]
    rw [if_neg (by rw [hM]; exact Bool.false_ne_true), if_pos hL, if_pos hV]
  · intro hL hV
    have hM : containsSub model "Mini".toList = false := by
      cases hMb : containsSub model "Mini".toList
      · rfl
      · exact (mini_lite_disjoint h7 hMb hL).elim
    simp only [spdUpdate]
    rw [if_neg (by rw [hM]; exact Bool.false_ne_true), if_pos hL,
      if_neg (by rw [hV]; exact Bool.false_ne_true)]

/-- Witness for `queryStatus_model_mapping` on a `Lite V2` status
response. -/
theorem queryStatus_model_mapping_witness :
    (QueryStatus ({} : Device) sampleFramesLiteV2).1 = true ∧
    (QueryStatus ({} : Device) sampleFramesLiteV2).2.1.stepsPerDegree = 1199 := by
  have h : (QueryStatus ({} : Device) sampleFramesLiteV2).1 = true := rfl
  exact ⟨h, (queryStatus_model_mapping {} sampleFramesLiteV2 h).2.1
    (by decide) (by decide)⟩

/-- Claim C2, counterexample: a status query whose model frame carries the
unrecognized suffix `Pro` parses successfully (`QueryStatus` returns
true), yet `stepsPerDegree` stays at its previous value `0`. -/
theorem queryStatus_success_stepsPerDegree_zero :
    ({} : Device).stepsPerDegree = 0 ∧
    (QueryStatus ({} : Device) sampleFramesPro).1 = true ∧
    (QueryStatus ({} : Device) sampleFramesPro).2.1.stepsPerDegree = 0 :=
  ⟨rfl, rfl, rfl⟩

/-- Claim C2, amended: a successful status query leaves `stepsPerDegree`
strictly positive only when the parsed model name is recognized (contains
`"Mini"` or `"Lite"`); an unrecognized name leaves `stepsPerDegree` at its
previous value, so a device whose `stepsPerDegree` was `0` keeps it at `0`
in that case. -/
theorem queryStatus_recognized_spd_pos (d : Device) (frames : List Str)
    (h : (QueryStatus d frames).1 = true) :
    ((containsSub (QueryStatus d frames).2.1.modelType "Mini".toList = true ∨
      containsSub (QueryStatus d frames).2.1.modelType "Lite".toList = true) →
      0 < (QueryStatus d frames).2.1.stepsPerDegree) ∧
    (containsSub (QueryStatus d frames).2.1.modelType "Mini".toList = false →
      containsSub (QueryStatus d frames).2.1.modelType "Lite".toList = false →
      (QueryStatus d frames).2.1.stepsPerDegree = d.stepsPerDegree) := by
  obtain ⟨hp, hdev, -, -, -, -⟩ := QueryStatus_true_parts d frames h
  obtain ⟨f0, model, hr0, hp0, hmt, hspd, -, -⟩ :=
    queryStatusParse_true_spec d frames hp
  rw [hdev, hmt, hspd]
  constructor
  · intro hrec
    simp only [spdUpdate]
    cases hMb : containsSub model "Mini".toList with
    | true => norm_num
    | false =>
      have hL : containsSub model "Lite".toList = true := by
        rcases hrec with hM | hL
        · rw [hMb] at hM
          exact absurd hM (by simp)
        · exact hL
      rw [if_neg Bool.false_ne_true, if_pos hL]
      cases hVb : containsSub model "V2".toList with
      | true => norm_num
      | false =>
        rw [if_neg Bool.false_ne_true]
        norm_num
  · intro hM hL
    simp only [spdUpdate]
    rw [if_neg (by rw [hM]; exact Bool.false_ne_true),
      if_neg (by rw [hL]; exact Bool.false_ne_true)]

/-- Witness for `queryStatus_recognized_spd_pos` on a `Mini` status
response. -/
theorem queryStatus_recognized_spd_pos_witness :
    (QueryStatus ({} : Device) sampleFramesMini).1 = true ∧
    0 < (QueryStatus ({} : Device) sampleFramesMini).2.1.stepsPerDegree := by
  have h : (QueryStatus ({} : Device) sampleFramesMini).1 = true := rfl
  exact ⟨h, (queryStatus_recognized_spd_pos {} sampleFramesMini h).1
    (Or.inl (by decide))⟩

/-- Zero-delta behaviour of the `WRRotatorMoveTo` normalization. -/
theorem movetoDelta_self (t : ℚ) : movetoDelta t t = 0 := by
  have h1 : qtrunc ((t - t + 180) / 360) = 0 := by
    rw [show (t - t + 180) / 360 = (1 : ℚ) / 2 by rw [sub_self]; norm_num]
    exact qtrunc_nonneg_eval _ 0 (by norm_num) (by norm_num) (by norm_num)
  simp only [movetoDelta, fmodf, h1]
  norm_num

/-- Claim C9, counterexample: calling `WRRotatorMoveTo` with the target
equal to the current angle (here `5°`, the mechanical angle `5000`
milli-degrees reported by the status frames) returns success, but it does
*not* send zero commands over the transport: the embedded status query
writes the probe command `"1500001\n"` before the zero delta is
detected. -/
theorem moveTo_zero_delta_writes_probe :
    (WRRotatorMoveTo [((0 : ℤ), ({} : Device))] 0 5 sampleFramesPro).1 =
      WRError.success ∧
    (WRRotatorMoveTo [((0 : ℤ), ({} : Device))] 0 5 sampleFramesPro).2.2 =
      ["1500001\n".toList] ∧
    ["1500001\n".toList] ≠ ([] : List Str) := by
  have hq : (QueryStatus ({} : Device) sampleFramesPro).1 = true := rfl
  obtain ⟨-, -, hwr, -, -, -⟩ := QueryStatus_true_parts _ _ hq
  have hmech : (QueryStatus ({} : Device) sampleFramesPro).2.1.mechanicalAngle = 5000 :=
    rfl
  have hdelta :
      movetoDelta 5
        (((QueryStatus ({} : Device) sampleFramesPro).2.1.mechanicalAngle : ℚ) / 1000) =
        0 := by
    rw [hmech, show ((5000 : ℤ) : ℚ) / 1000 = 5 by norm_num]
    exact movetoDelta_self 5
  have hrange : ¬((5 : ℚ) < 0 ∨ 360 ≤ (5 : ℚ)) := by
    push_neg
    exact ⟨by norm_num, by norm_num⟩
  unfold WRRotatorMoveTo
  simp only [show findDevice [((0 : ℤ), ({} : Device))] 0 = some ({} : Device)
    from rfl]
  rw [if_pos (show (({} : Device).hasPort && ({} : Device).portOpen) = true
    from rfl)]
  rw [if_neg hrange]
  rw [if_pos hq]
  rw [hdelta]
  rw [if_pos (rfl : (0 : ℚ) = 0)]
  exact ⟨rfl, hwr, by decide⟩

/-- Claim C9, amended: calling `WRRotatorMoveTo` with a target equal to
the device's current angle returns success and sends no *move* command;
the only transport write of the call is the probe `"1500001\n"` of the
embedded status query. -/
theorem moveTo_zero_delta_no_move_command (reg : Registry) (id : ℤ)
    (d : Device) (angle : ℚ) (frames : List Str)
    (h : findDevice reg id = some d)
    (hq : (QueryStatus d frames).1 = true)
    (hangle : angle = ((QueryStatus d frames).2.1.mechanicalAngle : ℚ) / 1000)
    (h0 : 0 ≤ angle) (h1 : angle < 360) :
    (WRRotatorMoveTo reg id angle frames).1 = WRError.success ∧
    (WRRotatorMoveTo reg id angle frames).2.2 = ["1500001\n".toList] := by
  obtain ⟨-, -, hwr, hP, hO, -⟩ := QueryStatus_true_parts d frames hq
  have hrange : ¬(angle < 0 ∨ 360 ≤ angle) := by
    push_neg
    exact ⟨h0, h1⟩
  have hdelta :
      movetoDelta angle (((QueryStatus d frames).2.1.mechanicalAngle : ℚ) / 1000) =
        0 := by
    rw [hangle]
    exact movetoDelta_self _
  unfold WRRotatorMoveTo
  simp only [h]
  rw [if_pos (show (d.hasPort && d.portOpen) = true by rw [hP, hO]; rfl)]
  rw [if_neg hrange]
  rw [if_pos hq]
  rw [hdelta]
  rw [if_pos (rfl : (0 : ℚ) = 0)]
  exact ⟨rfl, hwr⟩

/-- Witness for `moveTo_zero_delta_no_move_command` at target `5°` with
current mechanical angle `5000` milli-degrees. -/
theorem moveTo_zero_delta_no_move_command_witness :
    (WRRotatorMoveTo [((0 : ℤ), ({} : Device))] 0 5 sampleFramesMini).1 =
      WRError.success ∧
    (WRRotatorMoveTo [((0 : ℤ), ({} : Device))] 0 5 sampleFramesMini).2.2 =
      ["1500001\n".toList] :=
  moveTo_zero_delta_no_move_command _ 0 _ 5 sampleFramesMini rfl rfl
    (by rw [show (QueryStatus ({} : Device) sampleFramesMini).2.1.mechanicalAngle = 5000
      from rfl]; norm_num)
    (by norm_num) (by norm_num)

/-! Decimal-rendering length bounds, for the command `snprintf` buffers. -/

theorem natDecimalAux_length (fuel : ℕ) : ∀ (k n : ℕ) (acc : Str),
    n < 10 ^ (k + 1) → (natDecimalAux fuel n acc).length ≤ (k + 1) + acc.length := by
  induction fuel with
  | zero =>
    intro k n acc h
    simp [natDecimalAux]
  | succ fuel ih =>
    intro k n acc h
    by_cases hn : n < 10
    · simp only [natDecimalAux, if_pos hn, List.length_cons]
      omega
    · simp only [natDecimalAux, if_neg hn]
      cases k with
      | zero =>
        norm_num at h
        omega
      | succ k =>
        have hlt : n / 10 < 10 ^ (k + 1) := by
          rw [pow_succ] at h
          omega
        have := ih k (n / 10) (digitChar (n % 10) :: acc) hlt
        simp only [List.length_cons] at this
        omega

theorem natDecimal_length (n k : ℕ) (h : n < 10 ^ (k + 1)) :
    (natDecimal n).length ≤ k + 1 := by
  have := natDecimalAux_length (n + 1) k n [] h
  simpa using this

theorem intDecimal_length_of_lt (n : ℤ) (h0 : 0 ≤ n) (h : n < 10000000) :
    (intDecimal n).length ≤ 7 := by
  unfold intDecimal
  rw [if_neg (not_lt.mpr h0)]
  refine natDecimal_length n.toNat 6 ?_
  rw [show (10 : ℕ) ^ (6 + 1) = 10000000 by norm_num]
  omega

theorem snprintfInt8_eq (n : ℤ) (h0 : 0 ≤ n) (h : n < 10000000) :
    snprintfInt 8 n = intDecimal n := by
  unfold snprintfInt
  exact List.take_of_length_le (intDecimal_length_of_lt n h0 h)

theorem snprintfInt16_eq (n : ℤ) (h0 : 0 ≤ n) (h : n < 10000000) :
    snprintfInt 16 n = intDecimal n := by
  unfold snprintfInt
  exact List.take_of_length_le
    (le_trans (intDecimal_length_of_lt n h0 h) (by norm_num))

theorem qtrunc_bound (q : ℚ) (A : ℤ) (h1 : -(A : ℚ) ≤ q) (h2 : q ≤ A) :
    -A ≤ qtrunc q ∧ qtrunc q ≤ A := by
  rcases lt_or_le q 0 with hq | hq
  · rw [qtrunc_of_neg _ hq]
    constructor
    · have hc := Int.le_ceil q
      exact_mod_cast le_trans h1 hc
    · exact Int.ceil_le.mpr h2
  · rw [qtrunc_of_nonneg _ hq]
    constructor
    · exact Int.le_floor.mpr h1
    · have hc := Int.floor_le q
      exact_mod_cast le_trans hc h2

theorem moveCommandValue_bound (angle : ℚ) (spd : ℤ) (ha : |angle| ≤ 360)
    (h0 : 0 ≤ spd) (h1 : spd ≤ 1199) :
    0 ≤ 1000000 + qtrunc (angle * (spd : ℚ)) ∧
    1000000 + qtrunc (angle * (spd : ℚ)) < 10000000 := by
  rw [abs_le] at ha
  have hc0 : (0 : ℚ) ≤ (spd : ℚ) := by exact_mod_cast h0
  have hc1 : ((spd : ℚ)) ≤ 1199 := by exact_mod_cast h1
  have hb1 : -((431640 : ℤ) : ℚ) ≤ angle * (spd : ℚ) := by
    push_cast
    nlinarith [ha.1, ha.2, hc0, hc1]
  have hb2 : angle * (spd : ℚ) ≤ ((431640 : ℤ) : ℚ) := by
    push_cast
    nlinarith [ha.1, ha.2, hc0, hc1]
  obtain ⟨hl, hr⟩ := qtrunc_bound _ 431640 hb1 hb2
  omega

/-- Claim C3, counterexample: at relative angle `3/64 = 0.046875°` (exact
in `float`) on a `Mini`-calibrated device (`stepsPerDegree = 1142`), the
product is `53.53125`; the code truncates and sends `"1000053"`, while
`1000000` plus the rounding to the nearest integer would be `1000054`. -/
theorem moveCommand_not_rounded :
    (WRRotatorMove [((0 : ℤ), ({ stepsPerDegree := 1142 } : Device))] 0
      (3 / 64)).2.2 = ["1000053".toList] ∧
    1000000 + round ((3 / 64 : ℚ) * ((1142 : ℤ) : ℚ)) = 1000054 ∧
    (WRRotatorMove [((0 : ℤ), ({ stepsPerDegree := 1142 } : Device))] 0
      (3 / 64)).2.2 ≠
      [intDecimal (1000000 + round ((3 / 64 : ℚ) * ((1142 : ℤ) : ℚ)))] := by
  have hprod : (3 / 64 : ℚ) * ((1142 : ℤ) : ℚ) = 1713 / 32 := by
    push_cast
    norm_num
  have hq : qtrunc ((3 / 64 : ℚ) * ((1142 : ℤ) : ℚ)) = 53 := by
    rw [hprod]
    exact qtrunc_nonneg_eval _ 53 (by norm_num) (by norm_num) (by norm_num)
  have hr : round ((3 / 64 : ℚ) * ((1142 : ℤ) : ℚ)) = 54 := by
    rw [hprod, round_eq, show (1713 : ℚ) / 32 + 1 / 2 = 1729 / 32 by norm_num]
    exact Int.floor_eq_iff.mpr ⟨by norm_num, by norm_num⟩
  have hwrite :
      (WRRotatorMove [((0 : ℤ), ({ stepsPerDegree := 1142 } : Device))] 0
        (3 / 64)).2.2 = ["1000053".toList] := by
    unfold WRRotatorMove
    simp only [show findDevice [((0 : ℤ), ({ stepsPerDegree := 1142 } : Device))] 0 =
      some ({ stepsPerDegree := 1142 } : Device) from rfl]
    simp only [SendCommand, hq]
    decide
  refine ⟨hwrite, by rw [hr]; norm_num, ?_⟩
  rw [hwrite, hr]
  decide

/-- Claim C3, amended: the relative move command sent by `WRRotatorMove`
and the overshoot return command sent by the completion listener are the
decimal rendering of `1000000 + trunc(angle × stepsPerDegree)`, where
`trunc` is the C `(int)` cast (truncation toward zero), *not* rounding to
the nearest integer.  Stated for angles within `±360°` and the hardware
step constants (at most `1199`), for which the rendering fits the
command buffers. -/
theorem moveCommand_truncated_encoding :
    (∀ (reg : Registry) (id : ℤ) (d : Device) (angle : ℚ),
      findDevice reg id = some d → d.hasPort = true → d.portOpen = true →
      |angle| ≤ 360 → 0 ≤ d.stepsPerDegree → d.stepsPerDegree ≤ 1199 →
      (WRRotatorMove reg id angle).2.2 =
        [intDecimal (1000000 + qtrunc (angle * (d.stepsPerDegree : ℚ)))]) ∧
    (∀ (d : Device) (frames : List Str) (f0 f1 : Str) (rot : ℚ) (mech : ℤ),
      d.hasPort = true → d.portOpen = true →
      readFrame frames 0 = some f0 → parseFloatFrame f0 = some rot →
      readFrame frames 1 = some f1 → parseIntFrame f1 = some mech →
      d.overshooting = 1 → |d.overshootAngle| ≤ 360 →
      0 ≤ d.stepsPerDegree → d.stepsPerDegree ≤ 1199 →
      (MoveListenerThreadFunc d frames).2 =
        [intDecimal (1000000 +
          qtrunc ((if 0 < d.targetAngle then -d.overshootAngle
            else d.overshootAngle) * (d.stepsPerDegree : ℚ)))]) := by
  constructor
  · intro reg id d angle h hP hO ha h0 h1
    obtain ⟨hge, hlt⟩ := moveCommandValue_bound angle d.stepsPerDegree ha h0 h1
    unfold WRRotatorMove
    simp only [h]
    simp [hP, hO, SendCommand]
    split <;> rw [snprintfInt8_eq _ hge hlt]
  · intro d frames f0 f1 rot mech hP hO hr0 hpf hr1 hpi hov ha h0 h1
    have habs : |(if 0 < d.targetAngle then -d.overshootAngle
        else d.overshootAngle)| ≤ 360 := by
      split_ifs
      · rwa [abs_neg]
      · exact ha
    obtain ⟨hge, hlt⟩ := moveCommandValue_bound _ d.stepsPerDegree habs h0 h1
    unfold MoveListenerThreadFunc
    simp [hP, hO, hr0, hpf, hr1, hpi, hov, SendCommand]
    simp only [ite_mul, neg_mul] at hge hlt
    split <;> rw [snprintfInt16_eq _ hge hlt]

/-- Witness for `moveCommand_truncated_encoding`: a `1°` relative move on
a `Mini`-calibrated device, and an overshoot return move of `-1°` after an
outbound move toward `+10°`. -/
theorem moveCommand_truncated_encoding_witness :
    (WRRotatorMove [((0 : ℤ), ({ stepsPerDegree := 1142 } : Device))] 0 1).2.2 =
      [intDecimal (1000000 + qtrunc ((1 : ℚ) * ((1142 : ℤ) : ℚ)))] ∧
    (MoveListenerThreadFunc
        ({ stepsPerDegree := 1142, overshooting := 1, targetAngle := 10,
           overshootAngle := 1 } : Device)
        ["5A".toList, "5000A".toList]).2 =
      [intDecimal (1000000 +
        qtrunc ((if (0 : ℚ) < 10 then -(1 : ℚ) else (1 : ℚ)) * ((1142 : ℤ) : ℚ)))] :=
  ⟨moveCommand_truncated_encoding.1
    [((0 : ℤ), ({ stepsPerDegree := 1142 } : Device))] 0
    ({ stepsPerDegree := 1142 } : Device) 1 rfl rfl rfl (by norm_num)
    (by norm_num) (by norm_num),
   moveCommand_truncated_encoding.2
    ({ stepsPerDegree := 1142, overshooting := 1, targetAngle := 10,
       overshootAngle := 1 } : Device)
    ["5A".toList, "5000A".toList] "5A".toList "5000A".toList 5 5000
    rfl rfl rfl (by simp [parseFloatFrame, digitsVal]) rfl rfl rfl
    (by norm_num) (by norm_num) (by norm_num)⟩

end WandererRotator
